import Mathlib

/-!
# Verification of the question-template client

A shallow embedding, in Lean 4, of the pure logic of the `abhisheks28/client`
repository: the template validation/formatting helpers, the template state
store (`TemplateContext.jsx`), the API client's query construction
(`questionTemplateService.js`), and the session/identity store
(auth provider).

JavaScript conventions used throughout the embedding:
* a possibly-absent (`undefined`/`null`) string field is `Option String`;
* JS truthiness on strings ( `""` is falsy ) is modelled by `jsOrD` /
  `jsOr`, the translation of the `||` operator on string operands;
* JS strings are modelled by `String` where only trimming/containment
  matters and by `List Char` where `length`/`substring` arithmetic matters
  (JS `.length`/`.substring` operate on code units, i.e. on the sequence);
* a JS object used as an insertion-ordered string-keyed map is an
  association list `List (String × _)`;
* a value thrown by JS code is a `JSError`; an `async` function that can
  reject is `Except JSError _`.
-/

/-- JS `a || b` for string operands: `a` unless `a` is `undefined`, `null`
or the empty string (falsy), else `b`. -/
def jsOr (a b : Option String) : Option String :=
  match a with
  | some s => if s = "" then b else some s
  | none => b

/-- JS `a || d` with a definitely-present default string `d`. -/
def jsOrD (a : Option String) (d : String) : String :=
  match a with
  | some s => if s = "" then d else s
  | none => d

/-- JS `s.toLowerCase()`, character by character. -/
def jsToLower (s : String) : String := String.mk (s.data.map Char.toLower)

/-- JS `s.trim()`: strip leading and trailing whitespace, character by
character. -/
def jsTrim (s : String) : String :=
  String.mk (((s.data.dropWhile Char.isWhitespace).reverse.dropWhile Char.isWhitespace).reverse)

/-- A JavaScript error value as observed by `parseErrorMessage`: an `Error`
object (with a possibly absent / empty `message`), a plain string, or any
other value. -/
inductive JSError
  | errObj (message : Option String)
  | strVal (s : String)
  | other
deriving Repr, DecidableEq

/-! ## templateHelpers.js -/

/-- `parseErrorMessage` (templateHelpers.js 227-237): prefer a truthy
`error.message`, else a literal string, else a generic fallback. -/
def parseErrorMessage : JSError → String
  | .errObj (some m) => if m = "" then "An unexpected error occurred. Please try again." else m
  | .errObj none => "An unexpected error occurred. Please try again."
  | .strVal s => s
  | .other => "An unexpected error occurred. Please try again."

/-- The `colors` table of `getDifficultyColor`. -/
def difficultyColors : List (String × String) :=
  [("easy", "#10b981"), ("medium", "#f59e0b"), ("hard", "#ef4444"), ("expert", "#8b5cf6")]

/-- `getDifficultyColor` (templateHelpers.js 28-37):
`colors[difficulty?.toLowerCase()] || '#6b7280'`. -/
def getDifficultyColor (difficulty : Option String) : String :=
  (((difficulty.map jsToLower)).bind (fun k => difficultyColors.lookup k)).getD "#6b7280"

/-- A status badge descriptor. -/
structure Badge where
  label : String
  color : String
  bgColor : String
  icon : String
deriving Repr, DecidableEq

/-- The `draft` badge. -/
def draftBadge : Badge :=
  { label := "Draft", color := "#6b7280", bgColor := "rgba(107, 114, 128, 0.1)", icon := "📝" }

/-- The `badges` table of `getStatusBadge`. -/
def statusBadges : List (String × Badge) :=
  [("draft", draftBadge),
   ("active", { label := "Active", color := "#10b981", bgColor := "rgba(16, 185, 129, 0.1)", icon := "✅" }),
   ("inactive", { label := "Inactive", color := "#ef4444", bgColor := "rgba(239, 68, 68, 0.1)", icon := "🚫" })]

/-- `getStatusBadge` (templateHelpers.js 44-67):
`badges[status?.toLowerCase()] || badges.draft`. -/
def getStatusBadge (status : Option String) : Badge :=
  (((status.map jsToLower)).bind (fun k => statusBadges.lookup k)).getD draftBadge

/-- The `types` table of `formatQuestionType`. -/
def questionTypeLabels : List (String × String) :=
  [("mcq", "Multiple Choice"), ("user_input", "User Input"),
   ("image_based", "Image Based"), ("code_based", "Code Based")]

/-- `formatQuestionType` (templateHelpers.js 74-83):
`types[type?.toLowerCase()] || type` — the fallback is the raw input. -/
def formatQuestionType (type : Option String) : Option String :=
  match ((type.map jsToLower)).bind (fun k => questionTypeLabels.lookup k) with
  | some label => some label
  | none => type

/-- The `icons` table of `getQuestionTypeIcon`. -/
def questionTypeIcons : List (String × String) :=
  [("mcq", "📋"), ("user_input", "✏️"), ("image_based", "🖼️"), ("code_based", "💻")]

/-- `getQuestionTypeIcon` (templateHelpers.js 90-99):
`icons[type?.toLowerCase()] || '❓'`. -/
def getQuestionTypeIcon (type : Option String) : String :=
  (((type.map jsToLower)).bind (fun k => questionTypeIcons.lookup k)).getD "❓"

/-- `truncateText` (templateHelpers.js 107-110), on the code-unit sequence of
the JS string: `if (!text || text.length <= maxLength) return text;
return text.substring(0, maxLength) + '...'`. -/
def truncateText (text : List Char) (maxLength : Nat := 50) : List Char :=
  if text = [] ∨ text.length ≤ maxLength then text
  else text.take maxLength ++ ['.', '.', '.']

/-! ## Template form validation (validation utilities file) -/

/-- A template form draft as passed to `validateTemplateForm`: each field may
be absent (`undefined`) or a string. -/
structure TemplateDraft where
  module : Option String := none
  category : Option String := none
  topic : Option String := none
  subtopic : Option String := none
  format : Option String := none
  difficulty : Option String := none
  type : Option String := none
  dynamic_question : Option String := none
  logical_answer : Option String := none
deriving Repr, DecidableEq

/-- The required-field test `!data.f || data.f.trim().length === 0`. -/
def requiredMissing : Option String → Bool
  | none => true
  | some s => s = "" || (jsTrim s).length = 0

/-- Final error for a field with a required check and a maximum-length check
(`data.f && data.f.length > bound` overwrites the required message). -/
def reqMaxError (f : Option String) (reqMsg : String) (bound : Nat) (lenMsg : String) :
    Option String :=
  let e := if requiredMissing f then some reqMsg else none
  match f with
  | some s => if s ≠ "" ∧ s.length > bound then some lenMsg else e
  | none => e

/-- Final error for a field with only the required check. -/
def reqError (f : Option String) (reqMsg : String) : Option String :=
  if requiredMissing f then some reqMsg else none

/-- Final error for a script field: required check, then
`data.f && data.f.length < 10` overwrites with the minimum-length message. -/
def reqMinError (f : Option String) (reqMsg : String) (minMsg : String) : Option String :=
  let e := if requiredMissing f then some reqMsg else none
  match f with
  | some s => if s ≠ "" ∧ s.length < 10 then some minMsg else e
  | none => e

/-- The per-field final error slots of `validateTemplateForm`, in field
order. -/
def templateFieldEntries (d : TemplateDraft) : List (String × Option String) :=
  [("module", reqMaxError d.module "Module is required" 100 "Module must be less than 100 characters"),
   ("category", reqMaxError d.category "Category is required" 100 "Category must be less than 100 characters"),
   ("topic", reqMaxError d.topic "Topic is required" 100 "Topic must be less than 100 characters"),
   ("subtopic", reqMaxError d.subtopic "Subtopic is required" 100 "Subtopic must be less than 100 characters"),
   ("format", reqMaxError d.format "Format is required" 200 "Format must be less than 200 characters"),
   ("difficulty", reqError d.difficulty "Difficulty is required"),
   ("type", reqError d.type "Question type is required"),
   ("dynamic_question", reqMinError d.dynamic_question "Dynamic question code is required" "Code must be at least 10 characters"),
   ("logical_answer", reqMinError d.logical_answer "Logical answer code is required" "Code must be at least 10 characters")]

/-- The `errors` object of `validateTemplateForm`: one entry per field whose
error slot ends up set. -/
def templateFormErrors (d : TemplateDraft) : List (String × String) :=
  (templateFieldEntries d).filterMap (fun p => p.2.map (fun m => (p.1, m)))

/-- The result of `validateTemplateForm`. -/
structure ValidationResult where
  isValid : Bool
  errors : List (String × String)
deriving Repr, DecidableEq

/-- `validateTemplateForm` (validation utilities 11-72). -/
def validateTemplateForm (d : TemplateDraft) : ValidationResult :=
  { isValid := (templateFormErrors d).isEmpty, errors := templateFormErrors d }

/-- The nine required field names of a template draft. -/
inductive TemplateField
  | module | category | topic | subtopic | format | difficulty | type
  | dynamic_question | logical_answer
deriving Repr, DecidableEq

/-- The draft value of a field. -/
def TemplateField.get : TemplateField → TemplateDraft → Option String
  | .module, d => d.module
  | .category, d => d.category
  | .topic, d => d.topic
  | .subtopic, d => d.subtopic
  | .format, d => d.format
  | .difficulty, d => d.difficulty
  | .type, d => d.type
  | .dynamic_question, d => d.dynamic_question
  | .logical_answer, d => d.logical_answer

/-- The JSON key of a field. -/
def TemplateField.key : TemplateField → String
  | .module => "module"
  | .category => "category"
  | .topic => "topic"
  | .subtopic => "subtopic"
  | .format => "format"
  | .difficulty => "difficulty"
  | .type => "type"
  | .dynamic_question => "dynamic_question"
  | .logical_answer => "logical_answer"

/-! ## questionTemplateService.js — query construction of `listTemplates` -/

/-- The template-store filter set (TemplateContext.jsx 14-21). -/
structure TFilters where
  module : String := ""
  category : String := ""
  difficulty : String := ""
  status : String := ""
  limit : Nat := 50
  offset : Nat := 0
deriving Repr, DecidableEq

/-- The default filter set (initial state, also restored by `clearFilters`). -/
def defaultFilters : TFilters := {}

/-- The query parameters appended by `listTemplates`
(questionTemplateService.js 54-61): each `params.append` is guarded by the
truthiness of the filter value (`""` and `0` are falsy). -/
def listTemplatesParams (filters : TFilters) : List (String × String) :=
  (if filters.module ≠ "" then [("module", filters.module)] else []) ++
  (if filters.category ≠ "" then [("category", filters.category)] else []) ++
  (if filters.difficulty ≠ "" then [("difficulty", filters.difficulty)] else []) ++
  (if filters.status ≠ "" then [("status", filters.status)] else []) ++
  (if filters.limit ≠ 0 then [("limit", toString filters.limit)] else []) ++
  (if filters.offset ≠ 0 then [("offset", toString filters.offset)] else [])

/-! ## TemplateContext.jsx — the template state store

The store's operations call the service layer and reconcile the outcome
into local state.  At the store's boundary a service call either threw
(network failure, JSON parse failure, or a non-2xx status turned into a
thrown `Error` by the service) — `SvcOutcome.raise` — or resolved to a
parsed body whose `success` flag the store inspects: `SvcOutcome.failed`
is a resolved body with a falsy `success` (carrying the body's optional
`error` object), `SvcOutcome.ok` a truthy `success` with its payload. -/

/-- A stored question template record, as the client reads it. -/
structure Template where
  template_id : Nat
  module : String := ""
  category : String := ""
  difficulty : String := ""
  status : String := ""
deriving Repr, DecidableEq

/-- A nested `error` object of a resolved API body. -/
structure ErrBody where
  message : Option String := none
deriving Repr, DecidableEq

/-- Outcome of a service call as seen by the store. -/
inductive SvcOutcome (α : Type)
  | raise (e : JSError)
  | failed (error : Option ErrBody)
  | ok (data : α)

/-- `response.error?.message || dflt`: the message of the `Error` the store
throws (and immediately catches) when a resolved body has `success` falsy. -/
def failedMsg (e : Option ErrBody) (dflt : String) : String :=
  jsOrD (e.bind ErrBody.message) dflt

/-- Payload of a list response (`response.data`); `templates` and `total`
may each be absent. -/
structure ListPayload where
  templates : Option (List Template) := none
  total : Option Nat := none
deriving Repr, DecidableEq

/-- One ephemeral preview sample. -/
structure PreviewSample where
  question : String := ""
  answer : String := ""
deriving Repr, DecidableEq

/-- The template store's state (TemplateContext.jsx 12-24). -/
structure TemplateState where
  templates : List Template := []
  currentTemplate : Option Template := none
  filters : TFilters := {}
  loading : Bool := false
  error : Option String := none
  totalCount : Nat := 0
deriving Repr, DecidableEq

/-- The `{success, data?, error?}` structure a store operation returns. -/
structure StoreResult (α : Type) where
  success : Bool
  data : Option α := none
  error : Option String := none
deriving Repr, DecidableEq

/-- `fetchTemplates` (TemplateContext.jsx 29-56): set busy/clear error; on a
successful response replace collection and total (`response.data?.templates
|| []`, `response.data?.total || 0`); on a falsy `success` throw and catch
the error-body message; on a thrown error record `parseErrorMessage` and
clear the collection; always clear `loading` (the `finally` step).  The JS
function returns `undefined` — no `{success, ...}` structure. -/
def fetchTemplates (svc : SvcOutcome (Option ListPayload)) (st : TemplateState) :
    TemplateState :=
  let st1 := { st with loading := true, error := none }
  let st2 :=
    match svc with
    | .ok data =>
        { st1 with templates := (data.bind ListPayload.templates).getD [],
                   totalCount := (data.bind ListPayload.total).getD 0 }
    | .failed e =>
        { st1 with error := some (parseErrorMessage (.errObj (some (failedMsg e "Failed to fetch templates")))),
                   templates := [] }
    | .raise err =>
        { st1 with error := some (parseErrorMessage err), templates := [] }
  { st2 with loading := false }

/-- `createTemplate` (TemplateContext.jsx 61-82): on success re-list via
`fetchTemplates` and return `{success:true, data}`; on failure record the
parsed message and return `{success:false, error}`; `loading` cleared on
every path. -/
def createTemplate (svc : SvcOutcome Template)
    (refresh : SvcOutcome (Option ListPayload)) (st : TemplateState) :
    TemplateState × StoreResult Template :=
  let st1 := { st with loading := true, error := none }
  match svc with
  | .ok t =>
      let st2 := fetchTemplates refresh st1
      ({ st2 with loading := false }, { success := true, data := some t })
  | .failed e =>
      let msg := parseErrorMessage (.errObj (some (failedMsg e "Failed to create template")))
      ({ st1 with error := some msg, loading := false },
       { success := false, error := some msg })
  | .raise err =>
      let msg := parseErrorMessage err
      ({ st1 with error := some msg, loading := false },
       { success := false, error := some msg })

/-- `updateTemplate` (TemplateContext.jsx 87-115): on success replace the
matching collection entry by `template_id` and refresh `currentTemplate`
if it matches; on failure record and return the error. -/
def updateTemplate (templateId : Nat) (svc : SvcOutcome Template)
    (st : TemplateState) : TemplateState × StoreResult Template :=
  let st1 := { st with loading := true, error := none }
  match svc with
  | .ok t =>
      let newTemplates := st1.templates.map (fun x => if x.template_id = templateId then t else x)
      let newCurrent :=
        match st1.currentTemplate with
        | some c => if c.template_id = templateId then some t else some c
        | none => none
      ({ st1 with templates := newTemplates, currentTemplate := newCurrent, loading := false },
       { success := true, data := some t })
  | .failed e =>
      let msg := parseErrorMessage (.errObj (some (failedMsg e "Failed to update template")))
      ({ st1 with error := some msg, loading := false },
       { success := false, error := some msg })
  | .raise err =>
      let msg := parseErrorMessage err
      ({ st1 with error := some msg, loading := false },
       { success := false, error := some msg })

/-- Outcome of a service call whose resolved body the store never inspects
(`deleteTemplate`): it either resolves or throws. -/
inductive CallOutcome
  | raise (e : JSError)
  | ok

/-- `deleteTemplate` (TemplateContext.jsx 120-142): on resolution remove the
entry by `template_id` and clear a matching `currentTemplate`; on a thrown
error record and return it. -/
def deleteTemplate (templateId : Nat) (svc : CallOutcome) (st : TemplateState) :
    TemplateState × StoreResult Unit :=
  let st1 := { st with loading := true, error := none }
  match svc with
  | .ok =>
      let newTemplates := st1.templates.filter (fun t => t.template_id ≠ templateId)
      let newCurrent :=
        match st1.currentTemplate with
        | some c => if c.template_id = templateId then none else some c
        | none => none
      ({ st1 with templates := newTemplates, currentTemplate := newCurrent, loading := false },
       { success := true })
  | .raise err =>
      let msg := parseErrorMessage err
      ({ st1 with error := some msg, loading := false },
       { success := false, error := some msg })

/-- `getTemplate` (TemplateContext.jsx 147-167): on success set
`currentTemplate` (the collection is untouched); on failure record and
return the error. -/
def getTemplate (svc : SvcOutcome Template) (st : TemplateState) :
    TemplateState × StoreResult Template :=
  let st1 := { st with loading := true, error := none }
  match svc with
  | .ok t =>
      ({ st1 with currentTemplate := some t, loading := false },
       { success := true, data := some t })
  | .failed e =>
      let msg := parseErrorMessage (.errObj (some (failedMsg e "Failed to fetch template")))
      ({ st1 with error := some msg, loading := false },
       { success := false, error := some msg })
  | .raise err =>
      let msg := parseErrorMessage err
      ({ st1 with error := some msg, loading := false },
       { success := false, error := some msg })

/-- `previewTemplate` (TemplateContext.jsx 172-191): returns the samples to
the caller without storing them; on failure record and return the error. -/
def previewTemplate (svc : SvcOutcome (List PreviewSample)) (st : TemplateState) :
    TemplateState × StoreResult (List PreviewSample) :=
  let st1 := { st with loading := true, error := none }
  match svc with
  | .ok samples =>
      ({ st1 with loading := false }, { success := true, data := some samples })
  | .failed e =>
      let msg := parseErrorMessage (.errObj (some (failedMsg e "Failed to preview template")))
      ({ st1 with error := some msg, loading := false },
       { success := false, error := some msg })
  | .raise err =>
      let msg := parseErrorMessage err
      ({ st1 with error := some msg, loading := false },
       { success := false, error := some msg })

/-- A partial filter patch: the fields the patch names. -/
structure FilterPatch where
  module : Option String := none
  category : Option String := none
  difficulty : Option String := none
  status : Option String := none
  limit : Option Nat := none
  offset : Option Nat := none
deriving Repr, DecidableEq

/-- `updateFilters` (TemplateContext.jsx 196-198):
`setFilters(prev => ({ ...prev, ...newFilters, offset: 0 }))` — the spread
takes each field named in the patch, then `offset` is forced to `0`. -/
def updateFilters (prev : TFilters) (patch : FilterPatch) : TFilters :=
  { module := patch.module.getD prev.module,
    category := patch.category.getD prev.category,
    difficulty := patch.difficulty.getD prev.difficulty,
    status := patch.status.getD prev.status,
    limit := patch.limit.getD prev.limit,
    offset := 0 }

/-! ## Auth provider — session/identity store

The backend's `/users/me` body (`UserDetail`), with every field the
provider reads; each may be absent. -/

/-- One child profile entry inside a `children` mapping. -/
structure ChildProfile where
  id : Option String := none
  name : Option String := none
  grade : Option String := none
  school : Option String := none
  board : Option String := none
  uid : Option String := none
deriving Repr, DecidableEq

/-- The backend user record as the provider reads it (`apiData`). -/
structure ApiUser where
  user_id : String := ""
  role : Option String := none
  user_type : Option String := none
  display_name : Option String := none
  first_name : Option String := none
  grade : Option String := none
  school_name : Option String := none
  phone_number : Option String := none
  children : Option (List (String × ChildProfile)) := none
deriving Repr, DecidableEq

/-- `const role = apiData.role || apiData.user_type || 'student'`. -/
def roleOf (a : ApiUser) : String :=
  jsOrD a.role (jsOrD a.user_type "student")

/-- The synthesized self-child mapping for a student with no children
(auth provider, student child synthesis): one entry keyed by the user's own
identifier, `name` falling back from `display_name` to `first_name`,
`grade` defaulting to `'Grade 5'`, `school` to `'My School'`, `board`
fixed to `'CBSE'`. -/
def synthesizedChildren (a : ApiUser) : List (String × ChildProfile) :=
  [(a.user_id,
    { id := some a.user_id,
      name := jsOr a.display_name a.first_name,
      grade := some (jsOrD a.grade "Grade 5"),
      school := some (jsOrD a.school_name "My School"),
      board := some "CBSE",
      uid := some a.user_id })]

/-- The normalized profile stored in `userData`: the teacher shape has no
`children` field; the parent/student shape carries the duplicated phone
fields, the raw role as `userType`, and a children mapping. -/
inductive NormalizedUser
  | teacher (base : ApiUser)
  | member (base : ApiUser) (phoneNumber parentPhone : String) (userType : String)
      (children : List (String × ChildProfile))
deriving Repr, DecidableEq

/-- `userData?.children`: the teacher shape has none (`undefined`); the
parent/student shape always has the mapping (possibly empty). -/
def NormalizedUser.childrenMap : NormalizedUser → Option (List (String × ChildProfile))
  | .teacher _ => none
  | .member _ _ _ _ cs => some cs

/-- Whether the normalized profile took the teacher branch. -/
def NormalizedUser.isTeacherShape : NormalizedUser → Bool
  | .teacher _ => true
  | .member _ _ _ _ _ => false

/-- The `userType` of the normalized profile. -/
def NormalizedUser.userTypeOf : NormalizedUser → String
  | .teacher _ => "teacher"
  | .member _ _ _ t _ => t

/-- The parent/student normalization (auth provider):
`children || {}`, student self-child synthesis when the mapping is empty,
phone duplicated under both legacy keys, `userType` set to the raw role. -/
def normalizeMember (a : ApiUser) : NormalizedUser :=
  let role := roleOf a
  let nc0 := a.children.getD []
  let normalizedChildren :=
    if role = "student" ∧ nc0 = [] then synthesizedChildren a else nc0
  .member a (jsOrD a.phone_number "") (jsOrD a.phone_number "") role normalizedChildren

/-- The full profile normalization of `fetchUserData`'s success branch:
the teacher shape exactly when the derived role is the string `'teacher'`,
else the parent/student shape. -/
def normalizeProfile (a : ApiUser) : NormalizedUser :=
  if roleOf a = "teacher" then .teacher a else normalizeMember a

/-- The `user` state object: the teacher branch stores the teacher-shaped
record, the parent/student branch the `simpleUser` (`{...apiData, uid,
username: user_id}`); both expose `uid = user_id`. -/
inductive AuthUser
  | teacherUser (base : ApiUser)
  | simpleUser (base : ApiUser)
deriving Repr, DecidableEq

/-- `user.uid` — in both shapes mapped from `user_id`. -/
def AuthUser.uid : AuthUser → String
  | .teacherUser a => a.user_id
  | .simpleUser a => a.user_id

/-- The session store's state, including the three documented local-storage
slots: the bearer token (`authToken`), the serialized profile snapshot
(`authUser`), and the per-principal selected-child keys
(`activeChild_<uid>`), modelled as an association list. -/
structure SessionState where
  user : Option AuthUser := none
  userData : Option NormalizedUser := none
  userType : Option String := none
  activeChildId : Option String := none
  authToken : Option String := none
  authUser : Option AuthUser := none
  childStore : List (String × String) := []
deriving Repr, DecidableEq

/-- `localStorage.setItem` on the per-principal child-selection namespace:
replace the key's entry or append it. -/
def setStoreItem (store : List (String × String)) (k v : String) :
    List (String × String) :=
  if store.any (fun p => p.1 = k)
  then store.map (fun p => if p.1 = k then (k, v) else p)
  else store ++ [(k, v)]

/-- Outcome of a `fetch` of `/users/me`: the request threw, resolved
non-2xx, or resolved with a parsed `UserDetail` body. -/
inductive MeOutcome
  | raise (e : JSError)
  | notOk
  | ok (a : ApiUser)

/-- `fetchUserData` (auth provider 26-110) given the `/me` outcome: with no
token (`overrideToken || localStorage.getItem('authToken')` falsy — absent
or empty) clear `userData`/`userType`; on a 2xx body normalize the profile,
set `userType`, `userData`, `user`, and persist the `user` snapshot under
`authUser`; on a non-2xx response or a thrown error (caught) clear
`userData`/`userType`. -/
def fetchUserData (overrideToken : Option String) (resp : MeOutcome)
    (st : SessionState) : SessionState :=
  let token := jsOrD overrideToken (jsOrD st.authToken "")
  if token = "" then { st with userData := none, userType := none }
  else
    match resp with
    | .ok a =>
        if roleOf a = "teacher" then
          { st with userType := some "teacher",
                    userData := some (normalizeProfile a),
                    user := some (.teacherUser a),
                    authUser := some (.teacherUser a) }
        else
          { st with userType := some (roleOf a),
                    userData := some (normalizeProfile a),
                    user := some (.simpleUser a),
                    authUser := some (.simpleUser a) }
    | .notOk => { st with userData := none, userType := none }
    | .raise _ => { st with userData := none, userType := none }

/-- The active-child initialization effect (auth provider 135-153), run on
every profile load.  Guard: no `user` or no `children` field on `userData`
→ nothing changes.  Otherwise read `activeChild_<uid>` from local storage;
a truthy stored id that is still a key of the mapping is restored;
otherwise, if the mapping is non-empty, the first key is selected.  The
effect performs no storage write on any path, so the second component is
always the unchanged store. -/
def activeChildInitEffect (user : Option AuthUser) (userData : Option NormalizedUser)
    (activeChildId : Option String) (store : List (String × String)) :
    Option String × List (String × String) :=
  match user, userData.bind NormalizedUser.childrenMap with
  | some u, some children =>
      let storedChildId := store.lookup ("activeChild_" ++ u.uid)
      let childKeys := children.map Prod.fst
      let storedValid :=
        match storedChildId with
        | some s => s != "" && childKeys.contains s
        | none => false
      if storedValid then (storedChildId, store)
      else
        match childKeys with
        | [] => (activeChildId, store)
        | k :: _ => (some k, store)
  | _, _ => (activeChildId, store)

/-- `updateActiveChild` (auth provider 155-160): set the active child and,
when a `user` is present, persist the choice under the principal's key. -/
def updateActiveChild (user : Option AuthUser) (childId : String)
    (store : List (String × String)) : Option String × List (String × String) :=
  (some childId,
   match user with
   | some u => setStoreItem store ("activeChild_" ++ u.uid) childId
   | none => store)

/-- The parsed body of a successful `/auth/login` response. -/
structure LoginData where
  access_token : String := ""
deriving Repr, DecidableEq

/-- Outcome of the `/auth/login` exchange: the fetch (or body parse) threw,
the response was non-2xx with an optional `detail`, or it succeeded. -/
inductive LoginOutcome
  | raise (e : JSError)
  | notOk (detail : Option String)
  | ok (d : LoginData)

/-- The `{success, message?}` structure `login` resolves with. -/
structure AuthResult where
  success : Bool
  message : Option String := none
deriving Repr, DecidableEq

/-- `login` (auth provider 163-188): **no try/catch** — a thrown fetch
error propagates to the caller (`Except.error`).  On a 2xx response store
the token and run `fetchUserData` with it; on a non-2xx response resolve
with `{success:false, message: data.detail || 'Login failed'}` without
storing a credential. -/
def login (out : LoginOutcome) (meResp : MeOutcome) (st : SessionState) :
    Except JSError (AuthResult × SessionState) :=
  match out with
  | .raise e => .error e
  | .notOk detail => .ok ({ success := false, message := some (jsOrD detail "Login failed") }, st)
  | .ok d =>
      let st1 := { st with authToken := some d.access_token }
      let st2 := fetchUserData (some d.access_token) meResp st1
      .ok ({ success := true }, st2)

/-- The registration payload fields `register` reads (`""` models an absent
or falsy credential field). -/
structure RegPayload where
  email : String := ""
  password : String := ""
deriving Repr, DecidableEq

/-- Outcome of the `/auth/register` exchange. -/
inductive RegOutcome
  | raise (e : JSError)
  | notOk (detail : Option String)
  | ok (data : ApiUser)

/-- The structure `register` resolves with: on success it carries the
created user record mapped to `userObj` (`{...data, uid, username}`). -/
structure RegisterResult where
  success : Bool
  message : Option String := none
  user : Option AuthUser := none
deriving Repr, DecidableEq

/-- `register` (auth provider 230-270): no try/catch around the register
fetch itself (a thrown error propagates); on a non-2xx response resolve
`{success:false, message: data.detail || 'Registration failed'}`.  On a
2xx response build `userObj` and, when both credentials are truthy,
attempt an auto-login inside a try/catch: whether that login succeeds,
resolves unsuccessfully, or throws (caught), registration still resolves
`{success:true, user: userObj}` — with the session state the auto-login
produced, or untouched when it threw. -/
def register (payload : RegPayload) (rout : RegOutcome) (lout : LoginOutcome)
    (meResp : MeOutcome) (st : SessionState) :
    Except JSError (RegisterResult × SessionState) :=
  match rout with
  | .raise e => .error e
  | .notOk detail =>
      .ok ({ success := false, message := some (jsOrD detail "Registration failed") }, st)
  | .ok data =>
      let userObj := AuthUser.simpleUser data
      if payload.email ≠ "" ∧ payload.password ≠ "" then
        match login lout meResp st with
        | .ok (_, st') => .ok ({ success := true, user := some userObj }, st')
        | .error _ => .ok ({ success := true, user := some userObj }, st)
      else
        .ok ({ success := true, user := some userObj }, st)

/-- `logout` (auth provider 272-279): clear the two storage slots and the
in-memory principal state (the per-principal child selections remain). -/
def logout (st : SessionState) : SessionState :=
  { st with authToken := none, authUser := none,
            user := none, userData := none, userType := none, activeChildId := none }

/-! ## Helper lemmas -/

/-- Membership of a name among the first components of a guarded singleton. -/
theorem mem_map_fst_ite {β : Type} (c : Prop) [Decidable c] (n k : String) (v : β) :
    (n ∈ (if c then [(k, v)] else []).map Prod.fst) ↔ (c ∧ n = k) := by
  split <;> simp_all

/-- A string of length zero is empty. -/
theorem eq_empty_of_length_zero {s : String} (h : s.length = 0) : s = "" := by
  cases s with
  | mk data =>
    simp [String.length] at h
    simp [h]

/-! ## Theorems -/

/-- C7: `truncateText(s, n)` returns `s` unchanged when `length(s) ≤ n`,
and otherwise returns exactly the first `n` characters of `s` followed by
the ellipsis marker, for a total length of `n + 3`. -/
theorem truncateText_spec (s : List Char) (n : Nat) :
    (s.length ≤ n → truncateText s n = s) ∧
    (n < s.length →
      truncateText s n = s.take n ++ ['.', '.', '.'] ∧
      (truncateText s n).length = n + 3) := by
  constructor
  · intro h
    simp [truncateText, h]
  · intro h
    have hne : s ≠ [] := by
      rintro rfl
      simp at h
    have hcond : ¬(s = [] ∨ s.length ≤ n) := by
      push_neg
      exact ⟨hne, by omega⟩
    refine ⟨by rw [truncateText, if_neg hcond], ?_⟩
    rw [truncateText, if_neg hcond]
    simp [List.length_take]
    omega

/-- Witness for C7 at concrete inputs. -/
theorem truncateText_spec_witness :
    truncateText ['a', 'b', 'c'] 5 = ['a', 'b', 'c'] ∧
    truncateText ['a', 'b', 'c'] 2 = ['a', 'b', '.', '.', '.'] := by
  exact ⟨(truncateText_spec ['a', 'b', 'c'] 5).1 (by decide),
         ((truncateText_spec ['a', 'b', 'c'] 2).2 (by decide)).1⟩

/-- C10: a filter field is included in the `listTemplates` query string iff
its value is truthy; in particular an offset of `0`, an empty
module/category/difficulty/status and a limit of `0` are omitted. -/
theorem listTemplatesParams_truthy (f : TFilters) :
    ("module" ∈ (listTemplatesParams f).map Prod.fst ↔ f.module ≠ "") ∧
    ("category" ∈ (listTemplatesParams f).map Prod.fst ↔ f.category ≠ "") ∧
    ("difficulty" ∈ (listTemplatesParams f).map Prod.fst ↔ f.difficulty ≠ "") ∧
    ("status" ∈ (listTemplatesParams f).map Prod.fst ↔ f.status ≠ "") ∧
    ("limit" ∈ (listTemplatesParams f).map Prod.fst ↔ f.limit ≠ 0) ∧
    ("offset" ∈ (listTemplatesParams f).map Prod.fst ↔ f.offset ≠ 0) := by
  unfold listTemplatesParams
  refine ⟨?_, ?_, ?_, ?_, ?_, ?_⟩ <;>
    simp [List.map_append, List.mem_append, mem_map_fst_ite]

/-- C6: applying a filter patch yields a filter set whose offset is `0`,
whose fields named in the patch take the patch's values, and whose fields
not named in the patch keep their prior values (offset itself is forced to
`0` by the operation). -/
theorem updateFilters_spec (prev : TFilters) (patch : FilterPatch) :
    (updateFilters prev patch).offset = 0 ∧
    ((∀ v, patch.module = some v → (updateFilters prev patch).module = v) ∧
     (patch.module = none → (updateFilters prev patch).module = prev.module)) ∧
    ((∀ v, patch.category = some v → (updateFilters prev patch).category = v) ∧
     (patch.category = none → (updateFilters prev patch).category = prev.category)) ∧
    ((∀ v, patch.difficulty = some v → (updateFilters prev patch).difficulty = v) ∧
     (patch.difficulty = none → (updateFilters prev patch).difficulty = prev.difficulty)) ∧
    ((∀ v, patch.status = some v → (updateFilters prev patch).status = v) ∧
     (patch.status = none → (updateFilters prev patch).status = prev.status)) ∧
    ((∀ v, patch.limit = some v → (updateFilters prev patch).limit = v) ∧
     (patch.limit = none → (updateFilters prev patch).limit = prev.limit)) := by
  refine ⟨rfl, ⟨?_, ?_⟩, ⟨?_, ?_⟩, ⟨?_, ?_⟩, ⟨?_, ?_⟩, ⟨?_, ?_⟩⟩ <;>
    (first
      | (intro v hv; simp [updateFilters, hv])
      | (intro hv; simp [updateFilters, hv]))

/-- Witness for C6: a concrete patch naming only `category`, applied to a
filter set with a non-zero offset. -/
theorem updateFilters_spec_witness :
    (updateFilters { module := "m1", offset := 50 } { category := some "c2" }).offset = 0 ∧
    (updateFilters { module := "m1", offset := 50 } { category := some "c2" }).category = "c2" ∧
    (updateFilters { module := "m1", offset := 50 } { category := some "c2" }).module = "m1" := by
  refine ⟨(updateFilters_spec { module := "m1", offset := 50 } { category := some "c2" }).1,
    (updateFilters_spec { module := "m1", offset := 50 } { category := some "c2" }).2.2.1.1 "c2" rfl,
    (updateFilters_spec { module := "m1", offset := 50 } { category := some "c2" }).2.1.2 rfl⟩

/-- C5: on every invocation of the template store's list operation, a
successful response replaces the entire collection and total-count with the
server payload; every failure (a thrown service error or a resolved body
with a falsy success flag) clears the collection to empty and records the
extracted error message; and on every path the busy flag ends cleared. -/
theorem fetchTemplates_spec (st : TemplateState) :
    (∀ data,
      (fetchTemplates (.ok data) st).templates = (data.bind ListPayload.templates).getD [] ∧
      (fetchTemplates (.ok data) st).totalCount = (data.bind ListPayload.total).getD 0 ∧
      (fetchTemplates (.ok data) st).error = none ∧
      (fetchTemplates (.ok data) st).loading = false) ∧
    (∀ e,
      (fetchTemplates (.failed e) st).templates = [] ∧
      (fetchTemplates (.failed e) st).error =
        some (parseErrorMessage (.errObj (some (failedMsg e "Failed to fetch templates")))) ∧
      (fetchTemplates (.failed e) st).loading = false) ∧
    (∀ err,
      (fetchTemplates (.raise err) st).templates = [] ∧
      (fetchTemplates (.raise err) st).error = some (parseErrorMessage err) ∧
      (fetchTemplates (.raise err) st).loading = false) := by
  refine ⟨fun data => ⟨rfl, rfl, rfl, rfl⟩, fun e => ⟨rfl, rfl, rfl⟩, fun err => ⟨rfl, rfl, rfl⟩⟩

/-- Association-list lookup misses every table whose keys avoid the key. -/
theorem lookup_none_of_not_mem {β : Type} {s : String} {tbl : List (String × β)}
    (h : s ∉ tbl.map Prod.fst) : tbl.lookup s = none := by
  induction tbl with
  | nil => rfl
  | cons p ps ih =>
    rw [List.map_cons, List.mem_cons, not_or] at h
    have hne : (s == p.1) = false := beq_eq_false_iff_ne.mpr h.1
    simp [List.lookup, hne, ih h.2]

/-- C8 counterexample: `"EASY"` is a key outside the enumeration
`{easy, medium, hard, expert}` yet `getDifficultyColor` returns green, not
the default gray, because the helpers lowercase the key first; and the
label helper's fallback for an unknown key is the raw key itself, not a
fixed default. -/
theorem lookupHelpers_default_counterexample :
    getDifficultyColor (some "EASY") = "#10b981" ∧
    "EASY" ∉ ["easy", "medium", "hard", "expert"] ∧
    getDifficultyColor (some "EASY") ≠ "#6b7280" ∧
    formatQuestionType (some "essay") = some "essay" ∧
    formatQuestionType (some "essay") ≠ formatQuestionType (some "riddle") := by
  refine ⟨by decide, by decide, by decide, by decide, by decide⟩

/-- C8 amended: after lowercasing, a key outside the documented enumeration
gets the documented default: gray for difficulties outside
`{easy, medium, hard, expert}`, the draft badge for statuses outside
`{draft, active, inactive}`, and for question types outside
`{mcq, user_input, image_based, code_based}` the fallback icon `❓` and —
for the label helper — the raw key itself. -/
theorem lookupHelpers_default_amended (k : Option String) :
    ((k.map jsToLower).getD "" ∉ ["easy", "medium", "hard", "expert"] →
      getDifficultyColor k = "#6b7280") ∧
    ((k.map jsToLower).getD "" ∉ ["draft", "active", "inactive"] →
      getStatusBadge k = draftBadge) ∧
    ((k.map jsToLower).getD "" ∉ ["mcq", "user_input", "image_based", "code_based"] →
      getQuestionTypeIcon k = "❓" ∧ formatQuestionType k = k) := by
  cases k with
  | none =>
    exact ⟨fun _ => rfl, fun _ => rfl, fun _ => ⟨rfl, rfl⟩⟩
  | some s =>
    refine ⟨fun h => ?_, fun h => ?_, fun h => ?_⟩
    · have hd : difficultyColors.lookup (jsToLower s) = none :=
        lookup_none_of_not_mem (by simpa [difficultyColors] using h)
      simp [getDifficultyColor, hd]
    · have hs : statusBadges.lookup (jsToLower s) = none :=
        lookup_none_of_not_mem (by simpa [statusBadges] using h)
      simp [getStatusBadge, hs]
    · have hlab : questionTypeLabels.lookup (jsToLower s) = none :=
        lookup_none_of_not_mem (by simpa [questionTypeLabels] using h)
      have hico : questionTypeIcons.lookup (jsToLower s) = none :=
        lookup_none_of_not_mem (by simpa [questionTypeIcons] using h)
      exact ⟨by simp [getQuestionTypeIcon, hico], by simp [formatQuestionType, hlab]⟩

/-- Witness for the amended C8 at an out-of-enumeration key. -/
theorem lookupHelpers_default_amended_witness :
    getDifficultyColor (some "legendary") = "#6b7280" ∧
    getStatusBadge (some "archived") = draftBadge ∧
    getQuestionTypeIcon (some "essay") = "❓" := by
  refine ⟨(lookupHelpers_default_amended (some "legendary")).1 (by decide),
    (lookupHelpers_default_amended (some "archived")).2.1 (by decide),
    ((lookupHelpers_default_amended (some "essay")).2.2 (by decide)).1⟩

/-- A blank (absent, empty or whitespace-only) field fails the required
check. -/
theorem requiredMissing_of_blank {o : Option String}
    (h : o.elim True (fun s => jsTrim s = "")) : requiredMissing o = true := by
  cases o with
  | none => rfl
  | some s =>
    simp only [Option.elim] at h
    simp [requiredMissing, h]

/-- A field failing the required check keeps some error through the
max-length overwrite. -/
theorem reqMaxError_isSome (o : Option String) (rm lm : String) (b : Nat)
    (h : requiredMissing o = true) : (reqMaxError o rm b lm).isSome = true := by
  unfold reqMaxError
  cases o with
  | none => simp [h]
  | some s =>
    simp only [h, if_true]
    split <;> simp

/-- A field failing the required check keeps its error. -/
theorem reqError_isSome (o : Option String) (rm : String)
    (h : requiredMissing o = true) : (reqError o rm).isSome = true := by
  simp [reqError, h]

/-- A script field failing the required check keeps some error through the
min-length overwrite. -/
theorem reqMinError_isSome (o : Option String) (rm lm : String)
    (h : requiredMissing o = true) : (reqMinError o rm lm).isSome = true := by
  unfold reqMinError
  cases o with
  | none => simp [h]
  | some s =>
    simp only [h, if_true]
    split <;> simp

/-- A field entry whose error slot is set contributes its key to the final
error map. -/
theorem key_mem_errors (d : TemplateDraft) (k : String) (e : Option String)
    (hmem : (k, e) ∈ templateFieldEntries d) (h : e.isSome = true) :
    k ∈ (templateFormErrors d).map Prod.fst := by
  obtain ⟨m, hm⟩ := Option.isSome_iff_exists.mp h
  refine List.mem_map.mpr ⟨(k, m), List.mem_filterMap.mpr ⟨(k, e), hmem, ?_⟩, rfl⟩
  simp [hm]

/-- A non-empty error map makes the result invalid. -/
theorem isValid_eq_false_of_mem {d : TemplateDraft} {k : String}
    (h : k ∈ (templateFormErrors d).map Prod.fst) :
    (validateTemplateForm d).isValid = false := by
  rcases List.mem_map.mp h with ⟨p, hp, -⟩
  cases hE : templateFormErrors d with
  | nil =>
    rw [hE] at hp
    exact absurd hp (List.not_mem_nil p)
  | cons a as => simp [validateTemplateForm, hE]

/-- A present field with non-blank trim passes the required check. -/
theorem requiredMissing_eq_false {s : String} (h : jsTrim s ≠ "") :
    requiredMissing (some s) = false := by
  simp [requiredMissing]
  refine ⟨fun hs => h ?_, fun hl => h (eq_empty_of_length_zero hl)⟩
  subst hs
  rfl

/-- A present, non-blank field within the length bound has no error. -/
theorem reqMaxError_eq_none {s rm lm : String} {b : Nat}
    (h : jsTrim s ≠ "") (hb : s.length ≤ b) :
    reqMaxError (some s) rm b lm = none := by
  have hlt : ¬(s ≠ "" ∧ s.length > b) := by
    rintro ⟨-, hgt⟩
    omega
  simp [reqMaxError, requiredMissing_eq_false h, hlt]

/-- A present, non-blank field has no required error. -/
theorem reqError_eq_none {s rm : String} (h : jsTrim s ≠ "") :
    reqError (some s) rm = none := by
  simp [reqError, requiredMissing_eq_false h]

/-- A present, non-blank script field of at least 10 characters has no
error. -/
theorem reqMinError_eq_none {s rm lm : String}
    (h : jsTrim s ≠ "") (hb : 10 ≤ s.length) :
    reqMinError (some s) rm lm = none := by
  have hlt : ¬(s ≠ "" ∧ s.length < 10) := by
    rintro ⟨-, hgt⟩
    omega
  simp [reqMinError, requiredMissing_eq_false h, hlt]

/-- A taxonomy/format field that is present, non-blank after trimming, and
within the length bound. -/
def goodMax (o : Option String) (b : Nat) : Prop :=
  ∃ s, o = some s ∧ jsTrim s ≠ "" ∧ s.length ≤ b

/-- A field that is present and non-blank after trimming. -/
def goodReq (o : Option String) : Prop :=
  ∃ s, o = some s ∧ jsTrim s ≠ ""

/-- A script field that is present, non-blank, and at least 10 characters
long. -/
def goodMin (o : Option String) : Prop :=
  ∃ s, o = some s ∧ jsTrim s ≠ "" ∧ 10 ≤ s.length

/-- C3: any draft with one of the nine required fields absent, empty or
whitespace-only after trimming gets that field in the returned error map
and `isValid = false`; any draft with all nine present and non-blank, the
four taxonomy fields at most 100 characters, format at most 200, and both
script fields at least 10 characters, gets `isValid = true` with an empty
error map. -/
theorem validateTemplateForm_spec :
    (∀ (d : TemplateDraft) (f : TemplateField),
      (TemplateField.get f d).elim True (fun s => jsTrim s = "") →
      f.key ∈ (validateTemplateForm d).errors.map Prod.fst ∧
      (validateTemplateForm d).isValid = false) ∧
    (∀ d : TemplateDraft,
      goodMax d.module 100 → goodMax d.category 100 → goodMax d.topic 100 →
      goodMax d.subtopic 100 → goodMax d.format 200 →
      goodReq d.difficulty → goodReq d.type →
      goodMin d.dynamic_question → goodMin d.logical_answer →
      (validateTemplateForm d).isValid = true ∧
      (validateTemplateForm d).errors = []) := by
  constructor
  · intro d f hb
    have step : ∀ k : String, k ∈ (templateFormErrors d).map Prod.fst →
        k ∈ (validateTemplateForm d).errors.map Prod.fst ∧
        (validateTemplateForm d).isValid = false :=
      fun _ hk => ⟨hk, isValid_eq_false_of_mem hk⟩
    cases f with
    | module =>
      exact step _ (key_mem_errors d "module"
        (reqMaxError d.module "Module is required" 100 "Module must be less than 100 characters")
        (by simp [templateFieldEntries])
        (reqMaxError_isSome _ _ _ _ (requiredMissing_of_blank hb)))
    | category =>
      exact step _ (key_mem_errors d "category"
        (reqMaxError d.category "Category is required" 100 "Category must be less than 100 characters")
        (by simp [templateFieldEntries])
        (reqMaxError_isSome _ _ _ _ (requiredMissing_of_blank hb)))
    | topic =>
      exact step _ (key_mem_errors d "topic"
        (reqMaxError d.topic "Topic is required" 100 "Topic must be less than 100 characters")
        (by simp [templateFieldEntries])
        (reqMaxError_isSome _ _ _ _ (requiredMissing_of_blank hb)))
    | subtopic =>
      exact step _ (key_mem_errors d "subtopic"
        (reqMaxError d.subtopic "Subtopic is required" 100 "Subtopic must be less than 100 characters")
        (by simp [templateFieldEntries])
        (reqMaxError_isSome _ _ _ _ (requiredMissing_of_blank hb)))
    | format =>
      exact step _ (key_mem_errors d "format"
        (reqMaxError d.format "Format is required" 200 "Format must be less than 200 characters")
        (by simp [templateFieldEntries])
        (reqMaxError_isSome _ _ _ _ (requiredMissing_of_blank hb)))
    | difficulty =>
      exact step _ (key_mem_errors d "difficulty"
        (reqError d.difficulty "Difficulty is required")
        (by simp [templateFieldEntries])
        (reqError_isSome _ _ (requiredMissing_of_blank hb)))
    | type =>
      exact step _ (key_mem_errors d "type"
        (reqError d.type "Question type is required")
        (by simp [templateFieldEntries])
        (reqError_isSome _ _ (requiredMissing_of_blank hb)))
    | dynamic_question =>
      exact step _ (key_mem_errors d "dynamic_question"
        (reqMinError d.dynamic_question "Dynamic question code is required" "Code must be at least 10 characters")
        (by simp [templateFieldEntries])
        (reqMinError_isSome _ _ _ (requiredMissing_of_blank hb)))
    | logical_answer =>
      exact step _ (key_mem_errors d "logical_answer"
        (reqMinError d.logical_answer "Logical answer code is required" "Code must be at least 10 characters")
        (by simp [templateFieldEntries])
        (reqMinError_isSome _ _ _ (requiredMissing_of_blank hb)))
  · intro d h1 h2 h3 h4 h5 h6 h7 h8 h9
    obtain ⟨s1, e1, t1, l1⟩ := h1
    obtain ⟨s2, e2, t2, l2⟩ := h2
    obtain ⟨s3, e3, t3, l3⟩ := h3
    obtain ⟨s4, e4, t4, l4⟩ := h4
    obtain ⟨s5, e5, t5, l5⟩ := h5
    obtain ⟨s6, e6, t6⟩ := h6
    obtain ⟨s7, e7, t7⟩ := h7
    obtain ⟨s8, e8, t8, l8⟩ := h8
    obtain ⟨s9, e9, t9, l9⟩ := h9
    have errs : templateFormErrors d = [] := by
      simp [templateFormErrors, templateFieldEntries, e1, e2, e3, e4, e5, e6, e7, e8, e9,
        reqMaxError_eq_none t1 l1, reqMaxError_eq_none t2 l2, reqMaxError_eq_none t3 l3,
        reqMaxError_eq_none t4 l4, reqMaxError_eq_none t5 l5,
        reqError_eq_none t6, reqError_eq_none t7,
        reqMinError_eq_none t8 l8, reqMinError_eq_none t9 l9]
    exact ⟨by simp [validateTemplateForm, errs], by simp [validateTemplateForm, errs]⟩

/-- Witness for C3: a draft with a whitespace-only module is rejected with
`module` in the error map; a fully valid draft passes with no errors. -/
theorem validateTemplateForm_spec_witness :
    ("module" ∈ (validateTemplateForm { module := some "   " }).errors.map Prod.fst ∧
      (validateTemplateForm { module := some "   " }).isValid = false) ∧
    ((validateTemplateForm
        { module := some "Math Skill", category := some "Fundamentals",
          topic := some "Addition", subtopic := some "Single Digit",
          format := some "Compute the sum of two numbers",
          difficulty := some "easy", type := some "user_input",
          dynamic_question := some "def generate(): return 1",
          logical_answer := some "def validate(u, c): return u == c" }).isValid = true ∧
      (validateTemplateForm
        { module := some "Math Skill", category := some "Fundamentals",
          topic := some "Addition", subtopic := some "Single Digit",
          format := some "Compute the sum of two numbers",
          difficulty := some "easy", type := some "user_input",
          dynamic_question := some "def generate(): return 1",
          logical_answer := some "def validate(u, c): return u == c" }).errors = []) := by
  refine ⟨validateTemplateForm_spec.1 { module := some "   " } TemplateField.module
      ((by decide : jsTrim "   " = "") : _),
    validateTemplateForm_spec.2
      { module := some "Math Skill", category := some "Fundamentals",
        topic := some "Addition", subtopic := some "Single Digit",
        format := some "Compute the sum of two numbers",
        difficulty := some "easy", type := some "user_input",
        dynamic_question := some "def generate(): return 1",
        logical_answer := some "def validate(u, c): return u == c" }
      ⟨"Math Skill", rfl, by decide, by decide⟩
      ⟨"Fundamentals", rfl, by decide, by decide⟩
      ⟨"Addition", rfl, by decide, by decide⟩
      ⟨"Single Digit", rfl, by decide, by decide⟩
      ⟨"Compute the sum of two numbers", rfl, by decide, by decide⟩
      ⟨"easy", rfl, by decide⟩
      ⟨"user_input", rfl, by decide⟩
      ⟨"def generate(): return 1", rfl, by decide, by decide⟩
      ⟨"def validate(u, c): return u == c", rfl, by decide, by decide⟩⟩

/-- Replacing an existing key's entry makes lookup of that key find the new
value. -/
theorem lookup_map_replace (store : List (String × String)) (k v : String)
    (h : store.any (fun p => p.1 = k) = true) :
    (store.map (fun p => if p.1 = k then (k, v) else p)).lookup k = some v := by
  induction store with
  | nil => simp at h
  | cons p ps ih =>
    rw [List.map_cons]
    by_cases hpk : p.1 = k
    · rw [if_pos hpk]
      simp [List.lookup]
    · rw [if_neg hpk, List.any_cons] at *
      have h' : ps.any (fun p => p.1 = k) = true := by
        rcases Bool.or_eq_true_iff.mp h with h0 | h0
        · exact absurd (of_decide_eq_true h0) hpk
        · exact h0
      have hne : (k == p.1) = false := beq_eq_false_iff_ne.mpr (fun hh => hpk hh.symm)
      simp [List.lookup, hne, ih h']

/-- Appending a fresh key's entry makes lookup of that key find it. -/
theorem lookup_append_last (store : List (String × String)) (k v : String)
    (h : store.any (fun p => p.1 = k) = false) :
    (store ++ [(k, v)]).lookup k = some v := by
  induction store with
  | nil => simp [List.lookup]
  | cons p ps ih =>
    rw [List.any_cons] at h
    obtain ⟨h1, h2⟩ := Bool.or_eq_false_iff.mp h
    have hne : (k == p.1) = false :=
      beq_eq_false_iff_ne.mpr (fun hh => of_decide_eq_false h1 hh.symm)
    simp [List.lookup, hne, ih h2]

/-- `localStorage.setItem` semantics: after `setStoreItem store k v`, looking
up `k` yields `v`. -/
theorem lookup_setStoreItem (store : List (String × String)) (k v : String) :
    (setStoreItem store k v).lookup k = some v := by
  unfold setStoreItem
  split
  · exact lookup_map_replace store k v (by assumption)
  · exact lookup_append_last store k v ((Bool.not_eq_true _).mp (by assumption))

/-- C1 counterexample: a principal `u1` with children `{c1, c2}` and no
prior stored selection gets `c1` selected as active child, but the choice
is **not** persisted — the store after the effect is still empty, with no
entry under the principal's key. -/
theorem activeChildInit_persistence_counterexample :
    (activeChildInitEffect (some (.simpleUser { user_id := "u1" }))
      (some (.member { user_id := "u1" } "" "" "parent" [("c1", {}), ("c2", {})]))
      none []).1 = some "c1" ∧
    (activeChildInitEffect (some (.simpleUser { user_id := "u1" }))
      (some (.member { user_id := "u1" } "" "" "parent" [("c1", {}), ("c2", {})]))
      none []).2 = [] ∧
    ((activeChildInitEffect (some (.simpleUser { user_id := "u1" }))
      (some (.member { user_id := "u1" } "" "" "parent" [("c1", {}), ("c2", {})]))
      none []).2).lookup "activeChild_u1" = none := by
  exact ⟨rfl, rfl, rfl⟩

/-- C1 amended: on every profile load with a children mapping present, a
truthy stored identifier that is still a key of the mapping is restored;
otherwise the first key (insertion order) is selected when the mapping is
non-empty — but this fallback choice is **not** persisted (the effect never
writes to local storage); persistence happens only through the explicit
child-switch operation `updateActiveChild`. -/
theorem activeChildInit_amended (u : AuthUser) (nd : NormalizedUser)
    (prior : Option String) (store : List (String × String))
    (children : List (String × ChildProfile))
    (hch : nd.childrenMap = some children) :
    ((activeChildInitEffect (some u) (some nd) prior store).2 = store) ∧
    (∀ s, store.lookup ("activeChild_" ++ u.uid) = some s → s ≠ "" →
      s ∈ children.map Prod.fst →
      (activeChildInitEffect (some u) (some nd) prior store).1 = some s) ∧
    (∀ k ks, children.map Prod.fst = k :: ks →
      (∀ s, store.lookup ("activeChild_" ++ u.uid) = some s →
        s = "" ∨ s ∉ children.map Prod.fst) →
      (activeChildInitEffect (some u) (some nd) prior store).1 = some k) ∧
    (children = [] →
      (activeChildInitEffect (some u) (some nd) prior store).1 = prior) ∧
    (∀ cid, (updateActiveChild (some u) cid store).1 = some cid ∧
      (updateActiveChild (some u) cid store).2.lookup ("activeChild_" ++ u.uid) = some cid) := by
  have hbind : (some nd).bind NormalizedUser.childrenMap = some children := by
    simp [hch]
  refine ⟨?_, ?_, ?_, ?_, ?_⟩
  · simp only [activeChildInitEffect, hbind]
    split
    · rfl
    · split <;> rfl
  · intro s hs hne hmem
    have hcont : (children.map Prod.fst).contains s = true := List.elem_iff.mpr hmem
    have hbne : (s != "") = true := bne_iff_ne.mpr hne
    simp only [activeChildInitEffect, hbind, hs]
    rw [if_pos (by rw [hbne, hcont]; rfl)]
  · intro k ks hkeys hstored
    simp only [activeChildInitEffect, hbind]
    have hvalid :
        (match store.lookup ("activeChild_" ++ u.uid) with
          | some s => s != "" && (children.map Prod.fst).contains s
          | none => false) = false := by
      cases hl : store.lookup ("activeChild_" ++ u.uid) with
      | none => rfl
      | some s =>
        rcases hstored s hl with h0 | h0
        · have hb : (s != "") = false := by simp [h0]
          show (s != "" && (children.map Prod.fst).contains s) = false
          rw [hb, Bool.false_and]
        · have hc : (children.map Prod.fst).contains s = false := by
            rw [← Bool.not_eq_true]
            intro hc
            exact h0 (List.elem_iff.mp hc)
          show (s != "" && (children.map Prod.fst).contains s) = false
          rw [hc, Bool.and_false]
    rw [if_neg (fun hc => by rw [hvalid] at hc; simp at hc)]
    rw [hkeys]
  · intro hnil
    subst hnil
    simp only [activeChildInitEffect, hbind]
    have hval : (match store.lookup ("activeChild_" ++ u.uid) with
        | some s => s != "" && (List.map Prod.fst ([] : List (String × ChildProfile))).contains s
        | none => false) = false := by
      cases store.lookup ("activeChild_" ++ u.uid) with
      | none => rfl
      | some s => simp
    rw [if_neg (fun hc => by rw [hval] at hc; simp at hc)]
    rfl
  · intro cid
    exact ⟨rfl, lookup_setStoreItem store ("activeChild_" ++ u.uid) cid⟩

/-- Witness for the amended C1: a valid stored selection `c2` is restored
without touching storage, and an explicit child switch is persisted. -/
theorem activeChildInit_amended_witness :
    (activeChildInitEffect (some (.simpleUser { user_id := "u1" }))
      (some (.member { user_id := "u1" } "" "" "parent" [("c1", {}), ("c2", {})]))
      none [("activeChild_u1", "c2")]).1 = some "c2" ∧
    (activeChildInitEffect (some (.simpleUser { user_id := "u1" }))
      (some (.member { user_id := "u1" } "" "" "parent" [("c1", {}), ("c2", {})]))
      none [("activeChild_u1", "c2")]).2 = [("activeChild_u1", "c2")] ∧
    (updateActiveChild (some (.simpleUser { user_id := "u1" })) "c1"
      [("activeChild_u1", "c2")]).2.lookup "activeChild_u1" = some "c1" := by
  have h := activeChildInit_amended (.simpleUser { user_id := "u1" })
    (.member { user_id := "u1" } "" "" "parent" [("c1", {}), ("c2", {})])
    none [("activeChild_u1", "c2")] [("c1", {}), ("c2", {})] rfl
  exact ⟨h.2.1 "c2" (by decide) (by decide) (by decide), h.1,
    (h.2.2.2.2 "c1").2⟩

/-- C9 counterexample: a backend response whose `role` field is present but
empty still gets the `'student'` default (JS `||` skips falsy values), so
the default is not applied *only* when both fields are absent. -/
theorem roleDefault_counterexample :
    roleOf { user_id := "u9", role := some "", user_type := none } = "student" ∧
    ({ user_id := "u9", role := some "", user_type := none } : ApiUser).role ≠ none ∧
    (normalizeProfile { user_id := "u9", role := some "", user_type := none }).userTypeOf
      = "student" ∧
    (normalizeProfile { user_id := "u9", role := some "", user_type := none }).isTeacherShape
      = false := by
  exact ⟨rfl, by decide, rfl, rfl⟩

/-- C9 amended: the profile is normalized as a teacher exactly when the
derived role is the string `'teacher'`; every other derived role goes down
the parent/student path with `userType` set to that raw string; a present,
non-empty `role` wins, else a present non-empty `user_type`, and the
`'student'` default applies exactly when both fields are absent **or**
empty (falsy), not only when absent. -/
theorem normalizeProfile_role_amended (a : ApiUser) :
    ((normalizeProfile a).isTeacherShape = true ↔ roleOf a = "teacher") ∧
    (roleOf a ≠ "teacher" →
      (normalizeProfile a).isTeacherShape = false ∧
      (normalizeProfile a).userTypeOf = roleOf a) ∧
    (∀ s, a.role = some s → s ≠ "" → roleOf a = s) ∧
    (a.role.getD "" = "" → ∀ t, a.user_type = some t → t ≠ "" → roleOf a = t) ∧
    (a.role.getD "" = "" → a.user_type.getD "" = "" → roleOf a = "student") := by
  refine ⟨?_, ?_, ?_, ?_, ?_⟩
  · by_cases h : roleOf a = "teacher"
    · simp [normalizeProfile, h, NormalizedUser.isTeacherShape]
    · simp [normalizeProfile, h, normalizeMember, NormalizedUser.isTeacherShape]
  · intro h
    constructor
    · simp [normalizeProfile, h, normalizeMember, NormalizedUser.isTeacherShape]
    · simp [normalizeProfile, h, normalizeMember, NormalizedUser.userTypeOf]
  · intro s hs hne
    simp [roleOf, jsOrD, hs, hne]
  · intro hr t ht hne
    cases hrole : a.role with
    | none => simp [roleOf, jsOrD, hrole, ht, hne]
    | some r =>
      have : r = "" := by simpa [hrole] using hr
      simp [roleOf, jsOrD, hrole, this, ht, hne]
  · intro hr hu
    cases hrole : a.role with
    | none =>
      cases hut : a.user_type with
      | none => simp [roleOf, jsOrD, hrole, hut]
      | some t =>
        have : t = "" := by simpa [hut] using hu
        simp [roleOf, jsOrD, hrole, hut, this]
    | some r =>
      have hre : r = "" := by simpa [hrole] using hr
      cases hut : a.user_type with
      | none => simp [roleOf, jsOrD, hrole, hut, hre]
      | some t =>
        have : t = "" := by simpa [hut] using hu
        simp [roleOf, jsOrD, hrole, hut, hre, this]

/-- Witness for the amended C9: an unrecognized role string `'admin'` goes
down the parent/student path with `userType = 'admin'`, and `'teacher'`
takes the teacher branch. -/
theorem normalizeProfile_role_amended_witness :
    (normalizeProfile { user_id := "u9", role := some "admin" }).isTeacherShape = false ∧
    (normalizeProfile { user_id := "u9", role := some "admin" }).userTypeOf = "admin" ∧
    (normalizeProfile { user_id := "u9", role := some "teacher" }).isTeacherShape = true := by
  have h1 := (normalizeProfile_role_amended { user_id := "u9", role := some "admin" }).2.1
    (by decide)
  have h2 := ((normalizeProfile_role_amended { user_id := "u9", role := some "teacher" }).1).mpr
    (by decide)
  exact ⟨h1.1, h1.2, h2⟩

/-- C2 counterexample: the session store's `login` has no try/catch — a
thrown fetch error (e.g. a network failure) propagates to the caller
instead of being caught and returned as a `{success:false, error}`
structure. -/
theorem login_reraises_counterexample :
    login (.raise (.strVal "Failed to fetch")) (.notOk) {} =
      Except.error (.strVal "Failed to fetch") := by
  rfl

/-- C2 amended: every template-store operation (create, update, delete,
get-by-id, preview) catches a failure, normalizes it via the error-message
extractor, records it in the observable error slot, and returns
`{success:false, error}`; the list operation records the error but returns
no structure; the session store's `login` resolves
`{success:false, message}` for an application-rejected response but
propagates a thrown transport error uncaught. -/
theorem storeErrorHandling_amended :
    (∀ (e : JSError) (refresh : SvcOutcome (Option ListPayload)) (st : TemplateState),
      (createTemplate (.raise e) refresh st).2 =
        { success := false, error := some (parseErrorMessage e) } ∧
      (createTemplate (.raise e) refresh st).1.error = some (parseErrorMessage e)) ∧
    (∀ (eb : Option ErrBody) (refresh : SvcOutcome (Option ListPayload)) (st : TemplateState),
      (createTemplate (.failed eb) refresh st).2 =
        { success := false,
          error := some (parseErrorMessage (.errObj (some (failedMsg eb "Failed to create template")))) } ∧
      (createTemplate (.failed eb) refresh st).1.error =
        some (parseErrorMessage (.errObj (some (failedMsg eb "Failed to create template"))))) ∧
    (∀ (i : Nat) (e : JSError) (st : TemplateState),
      (updateTemplate i (.raise e) st).2 =
        { success := false, error := some (parseErrorMessage e) } ∧
      (updateTemplate i (.raise e) st).1.error = some (parseErrorMessage e)) ∧
    (∀ (i : Nat) (eb : Option ErrBody) (st : TemplateState),
      (updateTemplate i (.failed eb) st).2 =
        { success := false,
          error := some (parseErrorMessage (.errObj (some (failedMsg eb "Failed to update template")))) } ∧
      (updateTemplate i (.failed eb) st).1.error =
        some (parseErrorMessage (.errObj (some (failedMsg eb "Failed to update template"))))) ∧
    (∀ (i : Nat) (e : JSError) (st : TemplateState),
      (deleteTemplate i (.raise e) st).2 =
        { success := false, error := some (parseErrorMessage e) } ∧
      (deleteTemplate i (.raise e) st).1.error = some (parseErrorMessage e)) ∧
    (∀ (e : JSError) (st : TemplateState),
      (getTemplate (.raise e) st).2 =
        { success := false, error := some (parseErrorMessage e) } ∧
      (getTemplate (.raise e) st).1.error = some (parseErrorMessage e)) ∧
    (∀ (eb : Option ErrBody) (st : TemplateState),
      (getTemplate (.failed eb) st).2 =
        { success := false,
          error := some (parseErrorMessage (.errObj (some (failedMsg eb "Failed to fetch template")))) } ∧
      (getTemplate (.failed eb) st).1.error =
        some (parseErrorMessage (.errObj (some (failedMsg eb "Failed to fetch template"))))) ∧
    (∀ (e : JSError) (st : TemplateState),
      (previewTemplate (.raise e) st).2 =
        { success := false, error := some (parseErrorMessage e) } ∧
      (previewTemplate (.raise e) st).1.error = some (parseErrorMessage e)) ∧
    (∀ (eb : Option ErrBody) (st : TemplateState),
      (previewTemplate (.failed eb) st).2 =
        { success := false,
          error := some (parseErrorMessage (.errObj (some (failedMsg eb "Failed to preview template")))) } ∧
      (previewTemplate (.failed eb) st).1.error =
        some (parseErrorMessage (.errObj (some (failedMsg eb "Failed to preview template"))))) ∧
    (∀ (e : JSError) (st : TemplateState),
      (fetchTemplates (.raise e) st).error = some (parseErrorMessage e)) ∧
    (∀ (detail : Option String) (meResp : MeOutcome) (st : SessionState),
      login (.notOk detail) meResp st =
        .ok ({ success := false, message := some (jsOrD detail "Login failed") }, st)) ∧
    (∀ (e : JSError) (meResp : MeOutcome) (st : SessionState),
      login (.raise e) meResp st = .error e) := by
  exact ⟨fun e refresh st => ⟨rfl, rfl⟩, fun eb refresh st => ⟨rfl, rfl⟩,
    fun i e st => ⟨rfl, rfl⟩, fun i eb st => ⟨rfl, rfl⟩,
    fun i e st => ⟨rfl, rfl⟩,
    fun e st => ⟨rfl, rfl⟩, fun eb st => ⟨rfl, rfl⟩,
    fun e st => ⟨rfl, rfl⟩, fun eb st => ⟨rfl, rfl⟩,
    fun e st => rfl,
    fun detail meResp st => rfl,
    fun e meResp st => rfl⟩

/-- C4: a successful registration followed by a successful auto-login with
the same credentials yields a session whose normalized profile carries
exactly one synthetic child entry keyed by the new user's own identifier
(name falling back from `display_name` to `first_name`, grade and school
defaulted when absent); and when the auto-login is rejected or throws,
`register` still resolves `{success:true}` carrying the created user
record. -/
theorem register_student_selfchild (payload : RegPayload) (data me : ApiUser)
    (ld : LoginData) (st : SessionState)
    (he : payload.email ≠ "") (hp : payload.password ≠ "")
    (htok : ld.access_token ≠ "")
    (hrole : roleOf me = "student") (hch : me.children.getD [] = [])
    (hid : me.user_id = data.user_id) :
    (∃ st', register payload (.ok data) (.ok ld) (.ok me) st =
        .ok ({ success := true, user := some (.simpleUser data) }, st') ∧
      st'.userData.bind NormalizedUser.childrenMap =
        some [(data.user_id,
          { id := some data.user_id,
            name := jsOr me.display_name me.first_name,
            grade := some (jsOrD me.grade "Grade 5"),
            school := some (jsOrD me.school_name "My School"),
            board := some "CBSE",
            uid := some data.user_id })]) ∧
    (∀ detail, register payload (.ok data) (.notOk detail) (.ok me) st =
      .ok ({ success := true, user := some (.simpleUser data) }, st)) ∧
    (∀ e, register payload (.ok data) (.raise e) (.ok me) st =
      .ok ({ success := true, user := some (.simpleUser data) }, st)) := by
  refine ⟨?_, ?_, ?_⟩
  · refine ⟨fetchUserData (some ld.access_token) (.ok me)
      { st with authToken := some ld.access_token }, ?_, ?_⟩
    · show (if payload.email ≠ "" ∧ payload.password ≠ "" then _ else _) = _
      rw [if_pos ⟨he, hp⟩]
    · have hteach : roleOf me ≠ "teacher" := by
        rw [hrole]
        decide
      have htokd : jsOrD (some ld.access_token)
          (jsOrD ({ st with authToken := some ld.access_token } : SessionState).authToken "")
          = ld.access_token := by
        simp [jsOrD, htok]
      simp only [fetchUserData, htokd]
      rw [if_neg htok, if_neg hteach]
      simp only [Option.bind, normalizeProfile, if_neg hteach, normalizeMember,
        NormalizedUser.childrenMap]
      rw [if_pos ⟨hrole, hch⟩]
      simp [synthesizedChildren, hid]
  · intro detail
    show (if payload.email ≠ "" ∧ payload.password ≠ "" then _ else _) = _
    rw [if_pos ⟨he, hp⟩]
  · intro e
    show (if payload.email ≠ "" ∧ payload.password ≠ "" then _ else _) = _
    rw [if_pos ⟨he, hp⟩]

/-- Witness for C4: registering `a@b.com` as a student and auto-logging-in
yields a profile with exactly the one synthetic self-child keyed `u42`;
a rejected auto-login still resolves registration successfully. -/
theorem register_student_selfchild_witness :
    (register { email := "a@b.com", password := "pw123456" }
        (.ok { user_id := "u42" }) (.ok { access_token := "tok1" })
        (.ok { user_id := "u42", user_type := some "student" }) {}).toOption.map
        (fun p => p.2.userData.bind NormalizedUser.childrenMap) =
      some (some [("u42",
        { id := some "u42", name := none, grade := some "Grade 5",
          school := some "My School", board := some "CBSE", uid := some "u42" })]) ∧
    register { email := "a@b.com", password := "pw123456" }
        (.ok { user_id := "u42" }) (.notOk (some "wrong password"))
        (.ok { user_id := "u42", user_type := some "student" }) {} =
      .ok ({ success := true, user := some (.simpleUser { user_id := "u42" }) }, {}) := by
  have h := register_student_selfchild { email := "a@b.com", password := "pw123456" }
    { user_id := "u42" } { user_id := "u42", user_type := some "student" }
    { access_token := "tok1" } {}
    (by decide) (by decide) (by decide) (by decide) (by decide) rfl
  obtain ⟨st', heq, hcm⟩ := h.1
  constructor
  · rw [heq]
    simp only [Except.toOption, Option.map]
    rw [hcm]
    rfl
  · exact h.2.1 (some "wrong password")

/-- Witness for C10 at the default filter set: `limit = 50` is sent,
`offset = 0` and the empty filter strings are omitted. -/
theorem listTemplatesParams_truthy_witness :
    "limit" ∈ (listTemplatesParams defaultFilters).map Prod.fst ∧
    "offset" ∉ (listTemplatesParams defaultFilters).map Prod.fst ∧
    "module" ∉ (listTemplatesParams defaultFilters).map Prod.fst := by
  have h := listTemplatesParams_truthy defaultFilters
  exact ⟨h.2.2.2.2.1.mpr (by decide),
    fun hm => h.2.2.2.2.2.mp hm rfl,
    fun hm => h.1.mp hm rfl⟩
